import Mathlib

set_option maxRecDepth 20000

/-!
Verification of the SoF Event Extractor / Laytime Intelligence frontend
(extraction–normalization–validation–persistence pipeline).

The JavaScript sources are shallowly embedded: JS objects become Lean
structures with `Option`-typed fields (`none` = the key is absent /
`undefined`), JS strings become `String`, JS numbers that the pipeline
manipulates become `Int` (all defaults in the code are integers; inputs
with fractional parts are outside the model, no claim depends on them).
Imperative loops become structural recursions.  Browser storage becomes an
explicit `List SavedRecord` threaded through the operations; JSON
(de)serialization of a well-formed store is treated as the identity.
-/

namespace SoF

/-- An extracted operational event.  The JS object may carry the
current-schema keys (`name`, `start_time`, `end_time`) and/or the legacy
keys (`event`, `start`, `end`); a key that is absent (`undefined`) is
`none`. -/
structure Event where
  name : Option String := none
  start : Option String := none
  «end» : Option String := none
  start_time : Option String := none
  end_time : Option String := none
  event : Option String := none
deriving DecidableEq

/-- JS truthiness of a possibly-absent string: `undefined` and `""` are
falsy, every other string is truthy. -/
def truthyS : Option String → Bool
  | none => false
  | some s => s != ""

/-- JS `a || b` on possibly-absent strings: returns `a` when truthy,
otherwise `b`. -/
def jsOrS (a b : Option String) : Option String :=
  if truthyS a then a else b

/-- JS `a || d` with a (truthy) string literal default `d`. -/
def jsOrD (a : Option String) (d : String) : String :=
  match a with
  | some s => if s != "" then s else d
  | none => d

/-- JS `a || d` on numbers: `undefined`, `NaN` and `0` are falsy. -/
def jsOrI (a : Option Int) (d : Int) : Int :=
  match a with
  | some n => if n != 0 then n else d
  | none => d

/-- Rendering of a possibly-absent string inside a JS template literal:
`undefined` renders as the text `"undefined"`. -/
def templateStr : Option String → String
  | none => "undefined"
  | some s => s

/-- Rendering of a possibly-absent string by `Array.prototype.join`:
`undefined` renders as the empty string. -/
def joinStr : Option String → String
  | none => ""
  | some s => s

/-- The in-memory canonical record produced by either extraction path
(src/frontend: `extractedData`).  Absent keys are `none`. -/
structure ExtractionResult where
  vessel : Option String := none
  voyageFrom : Option String := none
  voyageTo : Option String := none
  cargo : Option String := none
  port : Option String := none
  operation : Option String := none
  demurragePerDay : Option Int := none
  dispatchPerDay : Option Int := none
  loadRatePerDay : Option Int := none
  cargoQtyMt : Option Int := none
  events : Option (List Event) := none
  sourceFile : Option String := none
deriving DecidableEq

/-- A dynamically-typed JS value as it can appear in the `vessel` and
`events` fields of data reaching `validateExtractedData` (for example out
of `JSON.parse` of the durable store).  Arrays of events keep their
elements; plain objects carrying their own `length` property are outside
the model (the program never produces them). -/
inductive JsField where
  | undef
  | nullv
  | boolv (b : Bool)
  | numv (n : Int)
  | strv (s : String)
  | arrv (l : List Event)
deriving DecidableEq

/-- JS truthiness of a `JsField` value. -/
def jsTruthy : JsField → Bool
  | .undef => false
  | .nullv => false
  | .boolv b => b
  | .numv n => n != 0
  | .strv s => s != ""
  | .arrv _ => true

/-- JS `x.length > 0`: arrays and strings report their length; on other
values the `length` property is `undefined` and `undefined > 0` is
`false`.  (On `null`/`undefined` the access would throw, but every call
site guards it behind a truthiness test, so returning `false` there is
unreachable under the guard.) -/
def jsLengthPos : JsField → Bool
  | .arrv l => 0 < l.length
  | .strv s => 0 < s.length
  | _ => false

/-- The shape `validateExtractedData` actually reads from its argument:
the `vessel` and `events` fields, each an arbitrary JS value. -/
structure VData where
  vessel : JsField
  events : JsField
deriving DecidableEq

/-- src/frontend/src/utils/dataCleanup.js, `validateExtractedData`:
`data && data.vessel && data.events && data.events.length > 0`,
used in boolean position (its truthiness). -/
def validateExtractedData : Option VData → Bool
  | none => false
  | some v => jsTruthy v.vessel && (jsTruthy v.events && jsLengthPos v.events)

/-- Injection of an optional-string field into the dynamic value space. -/
def toVesselField : Option String → JsField
  | none => .undef
  | some s => .strv s

/-- Injection of an optional event array into the dynamic value space. -/
def toEventsField : Option (List Event) → JsField
  | none => .undef
  | some l => .arrv l

/-- The view of an `ExtractionResult` that `validateExtractedData` reads. -/
def toVData (r : ExtractionResult) : VData :=
  ⟨toVesselField r.vessel, toEventsField r.events⟩

/-- `validateExtractedData` applied at the `saveToLaytime` call site,
where the argument is a possibly-null `ExtractionResult`. -/
def validER (d : Option ExtractionResult) : Bool :=
  validateExtractedData (d.map toVData)

/-- The predicate `event && event.name` of the sanitizer's filter; list
elements in the model are never `null`, so only the name's truthiness
remains. -/
def eventNameTruthy (e : Event) : Bool :=
  truthyS e.name

/-- The record `{...data, events: data.events?.filter(event => event && event.name) || []}`
built by the sanitizer for a non-null argument: every field is passed
through unchanged except `events`, which becomes the filtered array (`?.`
turns an absent array into `undefined`, and `|| []` turns that into `[]`). -/
def sanitizeEvents (r : ExtractionResult) : ExtractionResult :=
  { r with events := some ((r.events.getD []).filter eventNameTruthy) }

/-- src/frontend/src/utils/dataCleanup.js, `sanitizeDataBeforeSave`:
`if (!data) return null; return {...data, events: data.events?.filter(event => event && event.name) || []}`. -/
def sanitizeDataBeforeSave : Option ExtractionResult → Option ExtractionResult
  | none => none
  | some r => some (sanitizeEvents r)

/-- src/components/EventTable.jsx, `isMissingTime`:
`!start || !end || start === '--:--' || end === '--:--' || start === '00:00' && end === '00:00'`
where `start = event.start_time`, `end = event.end_time`; JS `&&` binds
tighter than `||`, exactly as Lean's `&&`/`||`. -/
def isMissingTime (e : Event) : Bool :=
  !truthyS e.start_time || !truthyS e.end_time ||
    e.start_time == some "--:--" || e.end_time == some "--:--" ||
    (e.start_time == some "00:00" && e.end_time == some "00:00")

/-! ## CSV heuristic extractor (src/pages/LayspanDashboard.jsx) -/

/-- Whitespace for the purposes of JS `trim` / `parseFloat` leading-space
skipping (the characters that occur in CSV text). -/
def isJsWs (c : Char) : Bool :=
  c == ' ' || c == '\t' || c == '\n' || c == '\r'

/-- Auxiliary for `jsSplit`: split the remaining characters at the
separator, accumulating the current piece in reverse. -/
def jsSplitAux (sep : Char) : List Char → List Char → List String
  | [], acc => [String.mk acc.reverse]
  | c :: cs, acc =>
    if c == sep then String.mk acc.reverse :: jsSplitAux sep cs []
    else jsSplitAux sep cs (c :: acc)

/-- JS `String.prototype.split` with a one-character separator: `n`
separators yield `n + 1` pieces; `''.split(sep)` is `['']`. -/
def jsSplit (s : String) (sep : Char) : List String :=
  jsSplitAux sep s.data []

/-- JS `String.prototype.trim` (restricted to the ASCII whitespace that
can occur here). -/
def jsTrim (s : String) : String :=
  String.mk ((s.data.dropWhile isJsWs).reverse.dropWhile isJsWs).reverse

/-- A parsed CSV row: the JS object mapping header names to cell strings,
kept in property-insertion order with unique keys. -/
abbrev Row := List (String × String)

/-- JS property assignment `row[k] = v`: overwrite an existing key in
place, otherwise append the new key. -/
def setKey (row : Row) (k v : String) : Row :=
  if row.any (fun p => p.1 == k) then
    row.map (fun p => if p.1 == k then (k, v) else p)
  else row ++ [(k, v)]

/-- JS property read `row[k]`: `none` is `undefined` (key absent). -/
def rowGet (row : Row) (k : String) : Option String :=
  (row.find? (fun p => p.1 == k)).map (fun p => p.2)

/-- `headers.forEach((header, index) => { row[header] = values[index] || ''; })`:
a missing or empty cell stores the empty string. -/
def mkRow (headers values : List String) : Row :=
  headers.enum.foldl (fun row p => setKey row p.2 (values.getD p.1 "")) []

/-- `text.split('\n').filter(line => line.trim() !== '')`. -/
def splitCsvLines (text : String) : List String :=
  (jsSplit text '\n').filter (fun line => jsTrim line != "")

/-- One data line to a row object: `line.split(',').map(v => v.trim())`
zipped against the headers. -/
def rowFromLine (headers : List String) (line : String) : Row :=
  mkRow headers ((jsSplit line ',').map jsTrim)

/-- Model of JS `parseFloat` restricted to the values this pipeline
produces: skip leading whitespace, read an optional sign and a run of
decimal digits; `none` is `NaN` (no digits, or an absent cell).  Inputs
with fractional parts are outside the model; no claim depends on them. -/
def parseFloatInt (s : String) : Option Int :=
  let cs := s.data.dropWhile isJsWs
  let signed : Bool × List Char :=
    match cs with
    | '-' :: t => (true, t)
    | '+' :: t => (false, t)
    | _ => (false, cs)
  let ds := signed.2.takeWhile (fun c => c.isDigit)
  if ds.isEmpty then none
  else
    let n : Nat := ds.foldl (fun acc c => acc * 10 + (c.toNat - 48)) 0
    some (if signed.1 then -(n : Int) else (n : Int))

/-- `parseFloat(row[k])` where the cell may be absent:
`parseFloat(undefined)` is `NaN`. -/
def parseFloatOpt (v : Option String) : Option Int :=
  v.bind parseFloatInt

/-- The vessel synonym chain
`row.Vessel || row.vessel || row.VESSEL || row['Vessel Name'] || row['vessel_name']`. -/
def vesselSyn (row : Row) : Option String :=
  jsOrS (rowGet row "Vessel") (jsOrS (rowGet row "vessel")
    (jsOrS (rowGet row "VESSEL") (jsOrS (rowGet row "Vessel Name")
      (rowGet row "vessel_name"))))

/-- Truthiness of the vessel synonym chain — the `if` condition of the
vessel-row scan. -/
def hasVesselKey (row : Row) : Bool :=
  truthyS (vesselSyn row)

/-- The `for (let i = 0; i < n; i++) { if (cond) { vesselRow = row; break } }`
loop body: walk at most `n` rows, returning the first satisfying the
vessel condition. -/
def scanVesselRow : List Row → Nat → Option Row
  | _, 0 => none
  | [], _ => none
  | r :: rs, n + 1 => if hasVesselKey r then some r else scanVesselRow rs n

/-- The vessel-row scan over the first `Math.min(5, csvData.length)` rows. -/
def findVesselRow (rows : List Row) : Option Row :=
  scanVesselRow rows (min 5 rows.length)

/-- The event synonym chain `row.Event || row.event || row['Event Name']`. -/
def eventSyn (row : Row) : Option String :=
  jsOrS (rowGet row "Event") (jsOrS (rowGet row "event") (rowGet row "Event Name"))

/-- Truthiness of the event synonym chain — the event-row filter. -/
def hasEventKey (row : Row) : Bool :=
  truthyS (eventSyn row)

/-- The event object literal of the CSV path: only the keys `name`,
`start` and `end` are created (no `start_time`, `end_time` or `event`). -/
def mkCsvEvent (row : Row) : Event :=
  { name := some (jsOrD (eventSyn row) "Unknown Event"),
    start := some (jsOrD (jsOrS (rowGet row "Start Time")
      (jsOrS (rowGet row "start_time") (rowGet row "Start"))) "00:00"),
    «end» := some (jsOrD (jsOrS (rowGet row "End Time")
      (jsOrS (rowGet row "end_time") (rowGet row "End"))) "00:00") }

/-- src/pages/LayspanDashboard.jsx, `extractVesselDataFromCsv`: `null` on
an empty table; otherwise scan the first five rows for a vessel row,
falling back to row 0, and build the result record with synonym lookups
and fixed defaults.  Because the table is non-empty, a vessel row is
always selected and the trailing `return null` is unreachable. -/
def extractVesselDataFromCsv (csvData : List Row) : Option ExtractionResult :=
  match csvData with
  | [] => none
  | r0 :: _ =>
    let vesselRow := (findVesselRow csvData).getD r0
    some {
      vessel := some (jsOrD (vesselSyn vesselRow) "Unknown Vessel"),
      voyageFrom := some (jsOrD (jsOrS (rowGet vesselRow "Voyage From")
        (jsOrS (rowGet vesselRow "voyage_from") (rowGet vesselRow "From"))) "Unknown"),
      voyageTo := some (jsOrD (jsOrS (rowGet vesselRow "Voyage To")
        (jsOrS (rowGet vesselRow "voyage_to") (rowGet vesselRow "To"))) "Unknown"),
      cargo := some (jsOrD (jsOrS (rowGet vesselRow "Cargo")
        (jsOrS (rowGet vesselRow "cargo") (rowGet vesselRow "Cargo Type"))) "Unknown Cargo"),
      port := some (jsOrD (jsOrS (rowGet vesselRow "Port")
        (jsOrS (rowGet vesselRow "port") (rowGet vesselRow "Port Name"))) "Unknown Port"),
      operation := some (jsOrD (jsOrS (rowGet vesselRow "Operation")
        (rowGet vesselRow "operation")) "Discharge"),
      demurragePerDay := some (jsOrI (parseFloatOpt (rowGet vesselRow "Demurrage"))
        (jsOrI (parseFloatOpt (rowGet vesselRow "Demurrage Rate")) 5000)),
      dispatchPerDay := some (jsOrI (parseFloatOpt (rowGet vesselRow "Dispatch"))
        (jsOrI (parseFloatOpt (rowGet vesselRow "Dispatch Rate")) 2500)),
      loadRatePerDay := some (jsOrI (parseFloatOpt (rowGet vesselRow "Load Rate"))
        (jsOrI (parseFloatOpt (rowGet vesselRow "Loading Rate")) 10000)),
      cargoQtyMt := some (jsOrI (parseFloatOpt (rowGet vesselRow "Cargo Qty"))
        (jsOrI (parseFloatOpt (rowGet vesselRow "Quantity")) 47000)),
      events := some ((csvData.filter hasEventKey).map mkCsvEvent),
      sourceFile := some "CSV Upload" }

/-- src/pages/LayspanDashboard.jsx, `processCsvFile`: split the text into
non-blank lines, take the first as the header row, turn the rest into row
objects, and run the extractor.  `none` covers both the thrown
`lines[0].split` on an all-blank file (caught by the handler) and the
extractor's own `null`. -/
def processCsvFileModel (text : String) : Option ExtractionResult :=
  match splitCsvLines text with
  | [] => none
  | hd :: tl =>
    extractVesselDataFromCsv (tl.map (rowFromLine ((jsSplit hd ',').map jsTrim)))

/-! ## Persistent record store (saveToLaytime / loadSavedEvents) -/

/-- The wall-clock values `saveToLaytime` reads while constructing a
record: `Date.now()`, `toLocaleDateString()`, the `YYYY-MM-DD` prefix of
`toISOString()`, and the full `toISOString()`. -/
structure SaveCtx where
  nowMs : Nat
  localeDate : String
  isoDate : String
  isoTimestamp : String

/-- `sanitizedData.events ? sanitizedData.events.length : 0` (an array is
always truthy, so only an absent field yields the `0` branch). -/
def eventsLen : Option (List Event) → Nat
  | some l => l.length
  | none => 0

/-- A durably saved record, as constructed by `saveToLaytime`'s `newItem`
object literal. -/
structure SavedRecord where
  id : Nat
  title : String
  date : String
  vessel : Option String
  voyageFrom : String
  voyageTo : String
  cargo : String
  port : Option String
  operation : String
  demurragePerDay : Int
  dispatchPerDay : Int
  loadRatePerDay : Int
  cargoQtyMt : Int
  totalEvents : Nat
  status : String
  extractedData : ExtractionResult
  events : List Event
  createdAt : String
  sourceFile : String
deriving DecidableEq

/-- The `newItem` object literal of `saveToLaytime`, built from the
sanitized data and the clock. -/
def mkNewItem (ctx : SaveCtx) (sanitizedData : ExtractionResult) : SavedRecord :=
  { id := ctx.nowMs,
    title := templateStr sanitizedData.vessel ++ " - " ++ ctx.localeDate,
    date := ctx.isoDate,
    vessel := sanitizedData.vessel,
    voyageFrom := jsOrD sanitizedData.voyageFrom "",
    voyageTo := jsOrD sanitizedData.voyageTo "",
    cargo := jsOrD sanitizedData.cargo "",
    port := sanitizedData.port,
    operation := jsOrD sanitizedData.operation "Discharge",
    demurragePerDay := jsOrI sanitizedData.demurragePerDay 0,
    dispatchPerDay := jsOrI sanitizedData.dispatchPerDay 0,
    loadRatePerDay := jsOrI sanitizedData.loadRatePerDay 0,
    cargoQtyMt := jsOrI sanitizedData.cargoQtyMt 0,
    totalEvents := eventsLen sanitizedData.events,
    status := "saved",
    extractedData := sanitizedData,
    events := sanitizedData.events.getD [],
    createdAt := ctx.isoTimestamp,
    sourceFile := jsOrD sanitizedData.sourceFile "Unknown" }

/-- How `saveToLaytime` exits: the `'No data to save'` alert, the
`'Invalid or incomplete data'` alert, or a successful save. -/
inductive SaveOutcome where
  | noData
  | validationFailed
  | saved
deriving DecidableEq

/-- src/pages/LayspanDashboard.jsx, `saveToLaytime`: reject null data,
reject data failing `validateExtractedData`, otherwise sanitize, build
`newItem`, `unshift` it onto the stored sequence and write the whole
sequence back.  The durable store is the explicit `store` argument. -/
def saveToLaytime (data : Option ExtractionResult) (ctx : SaveCtx)
    (store : List SavedRecord) : SaveOutcome × List SavedRecord :=
  match data with
  | none => (.noData, store)
  | some d =>
    if validER (some d) then
      (.saved, mkNewItem ctx (sanitizeEvents d) :: store)
    else (.validationFailed, store)

/-- `validateExtractedData(calc)` at the `loadSavedEvents` call site,
where the argument is a stored record: its `vessel` may be absent, its
`events` key always holds an array. -/
def validSR (rec : SavedRecord) : Bool :=
  validateExtractedData (some ⟨toVesselField rec.vessel, .arrv rec.events⟩)

/-- src/frontend/src/pages/SavedEvents.jsx, `loadSavedEvents`: read the
whole stored sequence and keep only entries passing
`validateExtractedData`. -/
def loadSavedEvents (store : List SavedRecord) : List SavedRecord :=
  store.filter validSR

/-! ## Document-extraction client (src/frontend/src/services/api.js) -/

/-- The JSON payload of a document-extraction response:
`{vessel?, cargo?, port?, events?}`, the events value being an arbitrary
JS value (the code tests it with `Array.isArray`). -/
structure DocPayload where
  vessel : Option String := none
  cargo : Option String := none
  port : Option String := none
  events : JsField := .undef
deriving DecidableEq

/-- What the `fetch` call can come back with: a rejected promise
(transport error), or a response with its `ok` flag and — when the body
parses as JSON — the parsed payload (`none` = `response.json()` threw). -/
inductive FetchOutcome where
  | netError
  | resp (ok : Bool) (body : Option DocPayload)
deriving DecidableEq

/-- The client's failure class.  Per the error taxonomy, both thrown
messages (`'Extraction service unavailable'` from the catch block and
`'No extraction service configured'` from the unconfigured branch) are
the one `ExtractionUnavailable` failure; the constructor keeps the
message. -/
inductive ApiError where
  | extractionUnavailable (msg : String)
deriving DecidableEq

/-- src/frontend/src/services/api.js, `extractEvents`: with no configured
`EXTRACTOR_URL`, throw before any network call; otherwise any exception in
the try block (transport error, `!response.ok`, unparsable JSON) is
collapsed by the catch into one failure; on success apply field defaults
`vessel || 'Unknown Vessel'`, `cargo || ''`, `port || ''`,
`Array.isArray(events) ? events : []`. -/
def extractEvents (url : Option String) (outcome : FetchOutcome) :
    Except ApiError ExtractionResult :=
  match url with
  | none => .error (.extractionUnavailable "No extraction service configured")
  | some _ =>
    match outcome with
    | .netError => .error (.extractionUnavailable "Extraction service unavailable")
    | .resp ok body =>
      if !ok then .error (.extractionUnavailable "Extraction service unavailable")
      else
        match body with
        | none => .error (.extractionUnavailable "Extraction service unavailable")
        | some data =>
          .ok { vessel := some (jsOrD data.vessel "Unknown Vessel"),
                cargo := some (jsOrD data.cargo ""),
                port := some (jsOrD data.port ""),
                events := some (match data.events with
                  | .arrv l => l
                  | _ => []) }

/-! ## Export serializers -/

/-- `value.includes(c)` for a one-character needle. -/
def containsChar (s : String) (c : Char) : Bool :=
  s.data.contains c

/-- `value.replace(/"/g, '""')`: double every embedded quote. -/
def dupQuotes (s : String) : String :=
  String.mk (s.data.foldr (fun c acc => if c == '"' then '"' :: '"' :: acc else c :: acc) [])

/-- The conditional escaping of `convertToCSV` (api.js): quote exactly the
string values containing a comma or a quote, doubling embedded quotes. -/
def csvEscape (v : String) : String :=
  if containsChar v ',' || containsChar v '"' then "\"" ++ dupQuotes v ++ "\""
  else v

/-- src/frontend/src/services/api.js, `convertToCSV`: `''` on empty data;
headers are `Object.keys(data[0])` in insertion order; each row renders
every header's value with the conditional escaping (an absent value joins
as the empty string). -/
def convertToCSV (data : List Row) : String :=
  match data with
  | [] => ""
  | r0 :: _ =>
    let headers := r0.map (fun p => p.1)
    let csvRows := String.intercalate "," headers ::
      data.map (fun row => String.intercalate ","
        (headers.map (fun h =>
          match rowGet row h with
          | some v => csvEscape v
          | none => "")))
    String.intercalate "\n" csvRows

/-- The pairs a present field contributes to the JS-object view of an
event (an absent key contributes nothing). -/
def optPair (k : String) : Option String → Row
  | none => []
  | some v => [(k, v)]

/-- An `Event` as the JS row object `convertToCSV` would receive, keys in
the creation order of the CSV extractor's object literal. -/
def eventToRow (e : Event) : Row :=
  optPair "name" e.name ++ optPair "start" e.start ++ optPair "end" e.«end» ++
    optPair "start_time" e.start_time ++ optPair "end_time" e.end_time ++
    optPair "event" e.event

/-- The name cell of the inline exporter: the template literal
`` `"${event.name}"` `` wraps the name in quotes unconditionally and
performs no escaping. -/
def inlineNameCell (name : Option String) : String :=
  "\"" ++ templateStr name ++ "\""

/-- The inline CSV builder shared verbatim by `exportToCSV` in
src/pages/LayspanDashboard.jsx and src/frontend/src/pages/SavedEvents.jsx:
fixed headers, then one row per event with the quoted name and the raw
`start`/`end` values joined by commas. -/
def exportToCSVContent (events : List Event) : String :=
  String.intercalate "\n"
    (String.intercalate "," ["Event Name", "Start Time", "End Time"] ::
      events.map (fun e => String.intercalate ","
        [inlineNameCell e.name, joinStr e.start, joinStr e.«end»]))

/-! ## Spec-side predicates -/

/-- The spec's "non-empty sequence": a non-empty array of events, or a
non-empty string (an ordered sequence of characters — arrays and strings
are exactly the JS values with positional elements and a `length`). -/
def NonEmptySequence (f : JsField) : Prop :=
  (∃ l, f = JsField.arrv l ∧ l ≠ []) ∨ (∃ s, f = JsField.strv s ∧ s ≠ "")

/-! ## Helper lemmas -/

theorem string_length_pos_iff (s : String) : 0 < s.length ↔ s ≠ "" := by
  cases s with
  | mk data =>
    rw [Ne, String.ext_iff]
    exact List.length_pos

theorem scanVesselRow_eq_find (rows : List Row) (n : Nat) :
    scanVesselRow rows n = (rows.take n).find? hasVesselKey := by
  induction rows generalizing n with
  | nil => cases n <;> simp [scanVesselRow]
  | cons r rs ih =>
    cases n with
    | zero => simp [scanVesselRow]
    | succ m =>
      by_cases h : hasVesselKey r
      · simp [scanVesselRow, h, List.find?_cons_of_pos]
      · simp [scanVesselRow, h, List.find?_cons_of_neg, ih]

theorem findVesselRow_eq_find (rows : List Row) :
    findVesselRow rows = (rows.take 5).find? hasVesselKey := by
  rw [findVesselRow, scanVesselRow_eq_find]
  congr 1
  rw [show min 5 rows.length = min rows.length 5 from Nat.min_comm .. ,
    ← List.take_take]
  exact List.take_of_length_le (by rw [List.length_take]; exact Nat.min_le_right _ _)

/-! ## Claims -/

/-- C3: the missing-time predicate holds exactly when start is
empty/falsy, or end is empty/falsy, or start is the sentinel `--:--`, or
end is `--:--`, or (start is `00:00` and end is `00:00`), the final
conjunction nested inside the disjunction; in particular
`MissingTime("00:00","17:00")` is false, `MissingTime("","--:--")` is
true and `MissingTime("00:00","00:00")` is true. -/
theorem C3_missing_time_predicate :
    (∀ ev : Event, isMissingTime ev = true ↔
      (truthyS ev.start_time = false ∨ truthyS ev.end_time = false ∨
        ev.start_time = some "--:--" ∨ ev.end_time = some "--:--" ∨
        (ev.start_time = some "00:00" ∧ ev.end_time = some "00:00"))) ∧
    isMissingTime { start_time := some "00:00", end_time := some "17:00" } = false ∧
    isMissingTime { start_time := some "", end_time := some "--:--" } = true ∧
    isMissingTime { start_time := some "00:00", end_time := some "00:00" } = true := by
  refine ⟨fun ev => ?_, by decide, by decide, by decide⟩
  simp [isMissingTime, Bool.or_eq_true, Bool.and_eq_true, Bool.not_eq_true',
    beq_iff_eq, or_assoc]

/-- C4: for every input (null, missing fields, non-sequence events values
included), `validateExtractedData` is true iff the input is non-null, its
vessel is truthy and its events value is a non-empty sequence; in
particular it is false whenever events is empty or vessel is falsy. -/
theorem C4_isvalid_characterization :
    (∀ d : Option VData, validateExtractedData d = true ↔
      ∃ v, d = some v ∧ jsTruthy v.vessel = true ∧ NonEmptySequence v.events) ∧
    (∀ v : VData,
      (jsTruthy v.vessel = false ∨ v.events = .arrv [] ∨ v.events = .strv "") →
      validateExtractedData (some v) = false) := by
  constructor
  · intro d
    cases d with
    | none => simp [validateExtractedData]
    | some v =>
      obtain ⟨vessel, events⟩ := v
      cases events <;>
        simp [validateExtractedData, NonEmptySequence, jsTruthy, jsLengthPos,
          ← List.length_pos, ← string_length_pos_iff, and_assoc]
  · intro v h
    obtain ⟨vessel, events⟩ := v
    rcases h with h | h | h
    · simp [validateExtractedData, h]
    · subst h; simp [validateExtractedData, jsLengthPos]
    · subst h; simp [validateExtractedData, jsTruthy]

/-- Witness for C4 at concrete inputs: a truthy vessel with one event
validates; the same vessel with an empty events array does not. -/
theorem C4_isvalid_characterization_witness :
    validateExtractedData
      (some ⟨.strv "MV TEST", .arrv [{ name := some "Loading" }]⟩) = true ∧
    validateExtractedData (some ⟨.strv "MV TEST", .arrv []⟩) = false :=
  ⟨(C4_isvalid_characterization.1
      (some ⟨.strv "MV TEST", .arrv [{ name := some "Loading" }]⟩)).mpr
      ⟨_, rfl, by decide, Or.inl ⟨_, rfl, by decide⟩⟩,
   C4_isvalid_characterization.2 ⟨.strv "MV TEST", .arrv []⟩ (Or.inr (Or.inl rfl))⟩

/-- C5: sanitizing a non-null result keeps exactly the events with a
truthy name, in their relative order (a `filter`), and passes every other
field through unchanged. -/
theorem C5_sanitize_filters_and_preserves (r : ExtractionResult) :
    ∃ r', sanitizeDataBeforeSave (some r) = some r' ∧
      r'.events = some ((r.events.getD []).filter (fun e => truthyS e.name)) ∧
      r'.vessel = r.vessel ∧ r'.voyageFrom = r.voyageFrom ∧
      r'.voyageTo = r.voyageTo ∧ r'.cargo = r.cargo ∧ r'.port = r.port ∧
      r'.operation = r.operation ∧ r'.demurragePerDay = r.demurragePerDay ∧
      r'.dispatchPerDay = r.dispatchPerDay ∧
      r'.loadRatePerDay = r.loadRatePerDay ∧ r'.cargoQtyMt = r.cargoQtyMt ∧
      r'.sourceFile = r.sourceFile :=
  ⟨sanitizeEvents r, rfl, rfl, rfl, rfl, rfl, rfl, rfl, rfl, rfl, rfl, rfl,
    rfl, rfl⟩

/-- C8: a save attempt on data failing validation leaves the stored
sequence untouched, and for non-null data exits through the
validation-failure branch. -/
theorem C8_invalid_save_persists_nothing (d : Option ExtractionResult)
    (ctx : SaveCtx) (store : List SavedRecord) (h : validER d = false) :
    (saveToLaytime d ctx store).2 = store ∧
    ∀ r, d = some r → (saveToLaytime d ctx store).1 = .validationFailed := by
  cases d with
  | none => exact ⟨rfl, fun r hr => by cases hr⟩
  | some d' =>
    have hsave : saveToLaytime (some d') ctx store = (.validationFailed, store) := by
      simp [saveToLaytime, h]
    rw [hsave]
    exact ⟨rfl, fun r _ => rfl⟩

/-- A result whose events array is empty: the spec's scenario for a
rejected save. -/
def emptyEventsResult : ExtractionResult :=
  { vessel := some "MV TEST", port := some "Rotterdam", events := some [] }

/-- A fixed clock for concrete save evaluations. -/
def ctx0 : SaveCtx :=
  { nowMs := 1700000000000, localeDate := "11/14/2023",
    isoDate := "2023-11-14", isoTimestamp := "2023-11-14T22:13:20.000Z" }

/-- Witness for C8: saving a result with `events = []` is rejected through
the validation branch and the store is unchanged. -/
theorem C8_invalid_save_persists_nothing_witness :
    validER (some emptyEventsResult) = false ∧
    (saveToLaytime (some emptyEventsResult) ctx0 []).2 = [] ∧
    (saveToLaytime (some emptyEventsResult) ctx0 []).1 = .validationFailed :=
  ⟨by decide,
   (C8_invalid_save_persists_nothing (some emptyEventsResult) ctx0 [] (by decide)).1,
   (C8_invalid_save_persists_nothing (some emptyEventsResult) ctx0 [] (by decide)).2
     emptyEventsResult rfl⟩

/-- A valid result every event of which has a falsy name, so that
sanitization empties the events list. -/
def allFalsyNamesResult : ExtractionResult :=
  { vessel := some "MV TEST", port := some "Rotterdam",
    events := some [{ name := some "", start := some "08:00", «end» := some "10:00" }] }

/-- Counterexample to C1 as stated: `allFalsyNamesResult` satisfies
IsValid (vessel truthy, one event), yet after Save the subsequent Load
returns the empty sequence — there is no first record carrying its
vessel/port/totalEvents, because the saved record's sanitized events list
is empty and Load's validity filter drops it. -/
theorem C1_roundtrip_counterexample :
    validER (some allFalsyNamesResult) = true ∧
    (saveToLaytime (some allFalsyNamesResult) ctx0 []).1 = .saved ∧
    loadSavedEvents (saveToLaytime (some allFalsyNamesResult) ctx0 []).2 = [] := by
  decide

/-- C1 (amended): for a valid result whose sanitized events list is
non-empty, Save succeeds and a subsequent Load yields a sequence headed by
the new record, whose vessel and port equal the input's and whose
totalEvents is the sanitized event count; the record is built via
`mkNewItem` from exactly the sanitized result. -/
theorem C1_save_load_roundtrip (r : ExtractionResult) (ctx : SaveCtx)
    (store : List SavedRecord) (hv : validER (some r) = true)
    (hs : (r.events.getD []).filter eventNameTruthy ≠ []) :
    (saveToLaytime (some r) ctx store).1 = .saved ∧
    ∃ rec rest,
      loadSavedEvents (saveToLaytime (some r) ctx store).2 = rec :: rest ∧
      rec.vessel = r.vessel ∧ rec.port = r.port ∧
      rec.totalEvents = ((r.events.getD []).filter eventNameTruthy).length ∧
      rec.events = (r.events.getD []).filter eventNameTruthy ∧
      sanitizeDataBeforeSave (some r) = some rec.extractedData ∧
      rec = mkNewItem ctx rec.extractedData := by
  have hsave : saveToLaytime (some r) ctx store =
      (.saved, mkNewItem ctx (sanitizeEvents r) :: store) := by
    simp [saveToLaytime, hv]
  have hvessel : jsTruthy (toVesselField r.vessel) = true := by
    have := hv
    rw [validER, Option.map, validateExtractedData, Bool.and_eq_true] at this
    exact this.1
  have hrecvalid : validSR (mkNewItem ctx (sanitizeEvents r)) = true := by
    have hunfold : validSR (mkNewItem ctx (sanitizeEvents r)) =
        (jsTruthy (toVesselField r.vessel) &&
          (true && decide
            (0 < ((r.events.getD []).filter eventNameTruthy).length))) := rfl
    rw [hunfold, hvessel]
    simp [List.length_pos, hs]
  rw [hsave]
  refine ⟨rfl, mkNewItem ctx (sanitizeEvents r), loadSavedEvents store, ?_,
    rfl, rfl, rfl, rfl, rfl, rfl⟩
  rw [loadSavedEvents, List.filter_cons, if_pos hrecvalid]
  rfl

/-- The event of the spec's CSV scenario, as the editable store holds it. -/
def loadingEvent : Event :=
  { name := some "Loading", start := some "08:00", «end» := some "10:00" }

/-- A valid result with one truthy-named event, for the round-trip
witness. -/
def namedEventResult : ExtractionResult :=
  { vessel := some "MV TEST", port := some "Rotterdam",
    events := some [loadingEvent] }

/-- Witness for C1 (amended): a valid result with one truthy-named event
round-trips; the loaded head record carries its vessel, port and event
count. -/
theorem C1_save_load_roundtrip_witness :
    validER (some namedEventResult) = true ∧
    ((saveToLaytime (some namedEventResult) ctx0 []).1 = .saved ∧
      ∃ rec rest,
        loadSavedEvents (saveToLaytime (some namedEventResult) ctx0 []).2 =
          rec :: rest ∧
        rec.vessel = namedEventResult.vessel ∧
        rec.port = namedEventResult.port ∧
        rec.totalEvents =
          ((namedEventResult.events.getD []).filter eventNameTruthy).length ∧
        rec.events = (namedEventResult.events.getD []).filter eventNameTruthy ∧
        sanitizeDataBeforeSave (some namedEventResult) =
          some rec.extractedData ∧
        rec = mkNewItem ctx0 rec.extractedData) :=
  ⟨by decide,
   C1_save_load_roundtrip namedEventResult ctx0 [] (by decide) (by decide)⟩

/-- The spec's CSV scenario: header `Vessel,Event,Start Time,End Time`,
one data row `MV TEST,Loading,08:00,10:00`. -/
def csvScenario : String :=
  "Vessel,Event,Start Time,End Time\nMV TEST,Loading,08:00,10:00"

/-- C2 evidence (code bug): the CSV extraction path emits its events with
only the keys `name`, `start` and `end` — on the spec's own scenario the
event reaching the UI has no `start_time`, no `end_time` and no `event`
key, so it exposes neither the full current schema nor the full legacy
schema. -/
theorem C2_csv_event_lacks_schema_keys :
    (processCsvFileModel csvScenario).map (fun r => r.events) =
      some (some [loadingEvent]) ∧
    loadingEvent.start_time = none ∧ loadingEvent.end_time = none ∧
    loadingEvent.event = none := by
  decide

/-- C6: for any CSV text with a header row and at least one data row,
extraction returns a non-null result whose vessel is resolved from the
first of the first `min(5, rowCount)` data rows whose vessel-synonym chain
is truthy (`find?` over `take 5`), falling back to data row 0. -/
theorem C6_csv_vessel_resolution (text hd d : String) (tl : List String)
    (h : splitCsvLines text = hd :: d :: tl) :
    ∃ r, processCsvFileModel text = some r ∧
      r.vessel = some (jsOrD (vesselSyn
        (((((d :: tl).map (rowFromLine ((jsSplit hd ',').map jsTrim))).take
            5).find? hasVesselKey).getD
          (rowFromLine ((jsSplit hd ',').map jsTrim) d))) "Unknown Vessel") := by
  have hp : processCsvFileModel text =
      extractVesselDataFromCsv
        ((d :: tl).map (rowFromLine ((jsSplit hd ',').map jsTrim))) := by
    unfold processCsvFileModel
    rw [h]
  rw [hp, List.map_cons]
  unfold extractVesselDataFromCsv
  refine ⟨_, rfl, ?_⟩
  rw [findVesselRow_eq_find]

/-- Witness for C6 at the spec's scenario; additionally, the resolved
vessel there evaluates to `MV TEST`. -/
theorem C6_csv_vessel_resolution_witness :
    splitCsvLines csvScenario =
      "Vessel,Event,Start Time,End Time" :: "MV TEST,Loading,08:00,10:00" :: [] ∧
    (∃ r, processCsvFileModel csvScenario = some r ∧
      r.vessel = some (jsOrD (vesselSyn
        ((((("MV TEST,Loading,08:00,10:00" :: []).map
            (rowFromLine ((jsSplit "Vessel,Event,Start Time,End Time" ',').map
              jsTrim))).take 5).find? hasVesselKey).getD
          (rowFromLine ((jsSplit "Vessel,Event,Start Time,End Time" ',').map
            jsTrim) "MV TEST,Loading,08:00,10:00"))) "Unknown Vessel")) ∧
    (processCsvFileModel csvScenario).map (fun r => r.vessel) =
      some (some "MV TEST") :=
  ⟨by decide,
   C6_csv_vessel_resolution csvScenario "Vessel,Event,Start Time,End Time"
     "MV TEST,Loading,08:00,10:00" [] (by decide),
   by decide⟩

/-- C7: on a successful document-extraction response the client defaults
an omitted vessel to `Unknown Vessel`, omitted cargo/port to the empty
string, and an omitted or non-array events value to the empty list; a
missing configuration, a transport error, a non-success status, or an
unparsable body each yield exactly one `extractionUnavailable` failure and
no partial result. -/
theorem C7_doc_extraction_contract (url : String) (p : DocPayload)
    (out : FetchOutcome) :
    (∃ r, extractEvents (some url) (.resp true (some p)) = .ok r ∧
      (p.vessel = none → r.vessel = some "Unknown Vessel") ∧
      (p.cargo = none → r.cargo = some "") ∧
      (p.port = none → r.port = some "") ∧
      ((∀ l, p.events ≠ .arrv l) → r.events = some [])) ∧
    extractEvents none out =
      .error (.extractionUnavailable "No extraction service configured") ∧
    extractEvents (some url) .netError =
      .error (.extractionUnavailable "Extraction service unavailable") ∧
    (∀ b, extractEvents (some url) (.resp false b) =
      .error (.extractionUnavailable "Extraction service unavailable")) ∧
    extractEvents (some url) (.resp true none) =
      .error (.extractionUnavailable "Extraction service unavailable") := by
  refine ⟨⟨_, rfl, ?_, ?_, ?_, ?_⟩, rfl, rfl, fun b => rfl, rfl⟩
  · intro h; simp [h, jsOrD]
  · intro h; simp [h, jsOrD]
  · intro h; simp [h, jsOrD]
  · intro h
    cases hp : p.events <;> simp_all

/-- A document-extraction payload omitting every field. -/
def emptyPayload : DocPayload :=
  { vessel := none, cargo := none, port := none, events := .undef }

/-- The fully defaulted result the client builds from `emptyPayload`. -/
def defaultedResult : ExtractionResult :=
  { vessel := some "Unknown Vessel", cargo := some "", port := some "", events := some [] }

/-- Witness for C7: a payload omitting every field yields the defaulted
result; the unconfigured client fails with `extractionUnavailable`. -/
theorem C7_doc_extraction_contract_witness :
    extractEvents (some "http://svc") (.resp true (some emptyPayload)) =
      .ok defaultedResult ∧
    extractEvents none .netError =
      .error (.extractionUnavailable "No extraction service configured") :=
  ⟨rfl,
   (C7_doc_extraction_contract "http://svc" emptyPayload
     FetchOutcome.netError).2.1⟩

/-- The event whose name embeds a quote, separating the two serializers. -/
def quoteNameEvent : Event :=
  { name := some "a\"b", start := some "08:00", «end» := some "10:00" }

/-- C9: the conditional serializer quotes exactly the values containing a
comma or quote and doubles embedded quotes; the inline serializer wraps
the name unconditionally without escaping; on a one-event list with a
quote in the name their outputs differ. -/
theorem C9_export_serializers_diverge :
    csvEscape "a\"b" = "\"a\"\"b\"" ∧
    csvEscape "a,b" = "\"a,b\"" ∧
    csvEscape "plain" = "plain" ∧
    inlineNameCell (some "a\"b") = "\"a\"b\"" ∧
    inlineNameCell (some "plain") = "\"plain\"" ∧
    convertToCSV ([quoteNameEvent].map eventToRow) ≠
      exportToCSVContent [quoteNameEvent] := by
  decide

/-- C10: every event produced by the CSV extraction path is flagged by the
UI missing-time predicate, because that predicate reads the `start_time`
and `end_time` keys, which the CSV path never populates. -/
theorem C10_csv_events_always_flagged (rows : List Row) (r : ExtractionResult)
    (h : extractVesselDataFromCsv rows = some r) (es : List Event)
    (hes : r.events = some es) (e : Event) (he : e ∈ es) :
    isMissingTime e = true := by
  cases rows with
  | nil => simp [extractVesselDataFromCsv] at h
  | cons r0 rest =>
    rw [extractVesselDataFromCsv] at h
    have hr := Option.some.inj h
    subst hr
    have hes' : ((r0 :: rest).filter hasEventKey).map mkCsvEvent = es :=
      Option.some.inj hes
    subst hes'
    obtain ⟨row, _, rfl⟩ := List.mem_map.mp he
    simp [isMissingTime, mkCsvEvent, truthyS]

/-- The data rows of the spec's CSV scenario. -/
def scenarioRows : List Row :=
  ("MV TEST,Loading,08:00,10:00" :: []).map
    (rowFromLine ((jsSplit "Vessel,Event,Start Time,End Time" ',').map jsTrim))

/-- The extraction result of the spec's CSV scenario. -/
def scenarioResult : ExtractionResult :=
  (extractVesselDataFromCsv scenarioRows).getD {}

/-- The events of the spec's CSV scenario. -/
def scenarioEvents : List Event :=
  scenarioResult.events.getD []

/-- Witness for C10: the scenario's event — with perfectly good `start`
and `end` values — is flagged as missing its times. -/
theorem C10_csv_events_always_flagged_witness :
    isMissingTime loadingEvent = true :=
  C10_csv_events_always_flagged scenarioRows scenarioResult (by decide)
    scenarioEvents (by decide) loadingEvent (by decide)

end SoF
